import Mathlib

/-!
Shallow embedding of the polymorphic audit-log subsystem of the
`django-generic-foreignkey` repository (app `action_logs`), and proofs of the
spec's claims about it.

The audit store is modelled as a list of records in insertion order; an
append goes to the end of the list.  Content types (entity kinds) are
modelled by `Nat` identifiers, user (actor) identities likewise, and the
type-erased `object_id` column by `String`, exactly as in
`ActionLog.object_id = models.CharField(...)`.  Timestamps are `Nat`.
-/

namespace ActionLogs

/-- One row of the `ActionLog` table (src/action_logs/models.py, class
`ActionLog`): uuid primary key (modelled as a `Nat` token), `action_type`,
`timestamp`, nullable actor FK `user`, the generic target reference
`(content_type, object_id)`, `description`, `ip_address`, `user_agent`. -/
structure ActionLogRecord where
  id : Nat
  action_type : String
  timestamp : Nat
  user : Option Nat
  content_type : Option Nat
  object_id : Option String
  description : String
  ip_address : Option String
  user_agent : String
deriving DecidableEq, Repr

/-- Content-type id assigned to `Blog` by the content-types registry. -/
def blog_ct : Nat := 1

/-- Content-type id assigned to `Comment`. -/
def comment_ct : Nat := 2

/-- Content-type id assigned to `UserProfile`. -/
def user_profile_ct : Nat := 3

/-- Content-type id assigned to `User` (not a `LoggedModel`). -/
def user_ct : Nat := 4

/-- Content-type id of `ActionLog` itself. -/
def action_log_ct : Nat := 10

/-- Content-type id of `ContentType` itself. -/
def content_type_ct : Nat := 11

/-- The kinds that inherit `LoggedModel` and therefore carry the
`action_logs = GenericRelation(ActionLog, ...)` reverse relation
(src/action_logs/models.py lines 138-144, 167, 241, 299): `Blog`,
`Comment`, `UserProfile`.  `User` does not. -/
def logged_model_cts : List Nat := [blog_ct, comment_ct, user_profile_ct]

/-- Append one `ActionLog` row (the net effect of a successful
`ActionLog.objects.create`, target included).  The uuid primary key is
modelled as a fresh token (the current store length); the claims never
depend on its value, only on row identity. -/
def log_emit (user : Option Nat) (atype : String) (target : Option (Nat × String))
    (descr : String) (now : Nat) (store : List ActionLogRecord) : List ActionLogRecord :=
  store ++ [⟨store.length, atype, now, user, target.map Prod.fst, target.map Prod.snd,
    descr, none, ""⟩]

/-! ### Actor deletion (claim C6)

Deleting a `User` is not only the `SET_NULL` handler of `ActionLog.user`
(src/action_logs/models.py lines 41-48).  The deletion collector also
cascades over everything the user owns through a `CASCADE` foreign key:
`Blog.author` (lines 178-183), `Comment.author` (lines 249-254) and
`UserProfile.user` (lines 300-305) — and those kinds inherit
`LoggedModel`, so their `GenericRelation` (lines 139-144) in turn deletes
every `ActionLog` record targeting a cascaded entity.  Only the records
that survive this collection get their actor reference cleared. -/

/-- The `SET_NULL` pass of user deletion, applied to the records that
survive collection: every record whose `user` FK references `uid` has the
reference set to NULL; this pass removes no record. -/
def delete_user (uid : Nat) (store : List ActionLogRecord) : List ActionLogRecord :=
  store.map (fun r => if r.user = some uid then { r with user := none } else r)

/-- Does record `r` target one of the entity instances in `owned`? -/
def targets_owned (owned : List (Nat × String)) (r : ActionLogRecord) : Prop :=
  ∃ p ∈ owned, r.content_type = some p.1 ∧ r.object_id = some p.2

instance (owned : List (Nat × String)) (r : ActionLogRecord) :
    Decidable (targets_owned owned r) := by
  unfold targets_owned; infer_instance

/-- Full effect of deleting the user `uid` on the `ActionLog` table.
`owned` is the CASCADE-deletion closure of the user: the
`(content_type, object_id)` pairs of the entities removed together with
the user — their blogs, comments and profile (and, transitively, the
comments on their blogs).  The `User` row itself is not in `owned`: it
carries no `GenericRelation`, so records targeting the user merely
dangle.  The collector deletes every record targeting an `owned` entity
(via that entity's `GenericRelation`), then the `SET_NULL` handler clears
the actor reference on the remaining records. -/
def delete_user_cascade (uid : Nat) (owned : List (Nat × String))
    (store : List ActionLogRecord) : List ActionLogRecord :=
  delete_user uid (store.filter (fun r => ¬ targets_owned owned r))

/-! ### Target resolution and target deletion (claim C1)

`content_object = GenericForeignKey('content_type', 'object_id')`
(src/action_logs/models.py lines 66-69) resolves the pair against the live
entities; a dangling pair resolves to `None`, never an error.  The live
entities are modelled as a list of `(content_type, object_id)` pairs. -/

/-- Resolution of a record's generic target against the set of live
entities: `None` when the record has no target or the referent is gone. -/
def resolve_target (live : List (Nat × String)) (r : ActionLogRecord) :
    Option (Nat × String) :=
  match r.content_type, r.object_id with
  | some c, some o => if (c, o) ∈ live then some (c, o) else none
  | _, _ => none

/-- Effect on the live-entity set of deleting the instance `(ct, oid)`. -/
def delete_entity (ct : Nat) (oid : String) (live : List (Nat × String)) :
    List (Nat × String) :=
  live.filter (fun p => p ≠ (ct, oid))

/-- Does record `r` target the instance `(ct, oid)`? -/
def targets (ct : Nat) (oid : String) (r : ActionLogRecord) : Prop :=
  r.content_type = some ct ∧ r.object_id = some oid

instance (ct : Nat) (oid : String) (r : ActionLogRecord) : Decidable (targets ct oid r) := by
  unfold targets; infer_instance

/-- Effect on the `ActionLog` table of deleting one entity instance
`(ct, oid)`.  When the instance's kind inherits `LoggedModel`, its
`GenericRelation` makes Django's deletion collector cascade: every record
whose `(content_type, object_id)` points at the instance is deleted as
well.  A kind without the relation (such as `User`) leaves the table
untouched; the records merely dangle. -/
def delete_instance_cascade (ct : Nat) (oid : String)
    (store : List ActionLogRecord) : List ActionLogRecord :=
  if ct ∈ logged_model_cts then
    store.filter (fun r => ¬ targets ct oid r)
  else
    store

/-! ### Exact-pair filtering (claim C8)

`ObjectLogListView.get_queryset` (src/action_logs/views.py lines 126-133)
filters the table by `content_type_id=...` AND `object_id=...`. -/

/-- The queryset of `ObjectLogListView`: records whose target equals the
exact `(content_type_id, object_id)` pair. -/
def object_logs_queryset (ctid : Nat) (oid : String)
    (store : List ActionLogRecord) : List ActionLogRecord :=
  store.filter (fun r => targets ctid oid r)

/-! ### Client-address derivation (claim C10)

`ActionLoggingMixin.get_client_ip` (src/action_logs/mixins.py lines
183-189).  `request.META` lookups are modelled as `Option String`
(`none` = header absent). -/

/-- Everything before the first comma: Python's `s.split(',')[0]`. -/
def before_comma (s : String) : String :=
  ⟨s.toList.takeWhile (fun c => c ≠ ',')⟩

/-- `get_client_ip`: the truthiness test `if x_forwarded_for:` takes the
forwarded-for branch only when the header is present AND non-empty;
otherwise the result is `REMOTE_ADDR` (possibly absent). -/
def get_client_ip (xff : Option String) (remote : Option String) : Option String :=
  match xff with
  | some s => if s ≠ "" then some (before_comma s) else remote
  | none => remote

/-- The behavior claim C10 describes, word for word: whenever the header
is *present* (empty or not), the result is the portion of its value before
the first comma. -/
def claimed_client_ip (xff : Option String) (remote : Option String) : Option String :=
  match xff with
  | some s => some (before_comma s)
  | none => remote

/-! ### Lifecycle pipelines (claims C1, C2)

Each pipeline replays, in order, every logging step a single Django
operation performs: the model's overridden `save`/`delete`
(src/action_logs/models.py) *and* the signal receivers registered in
src/action_logs/signals.py.  `post_save` fires inside `super().save()`,
i.e. before the code after that call in the override; `post_delete` fires
after the deletion collector has run.  The catch-all `post_save` receiver
`universal_log_save` also fires on every save but its body creates
nothing, so it contributes no step here (see `universal_log_save`). -/

/-- `Blog.save` (models.py lines 214-230) plus the `post_save` receiver
`log_blog_save` (signals.py lines 47-56).  First persist (`pk is None`):
the receiver returns early on `created`, then the override logs a create.
Subsequent save: the receiver logs an update, then the override logs an
update again.  `pk_new` is the primary key the INSERT assigns. -/
def blog_save (pk : Option String) (title : String) (author : Nat)
    (pk_new : String) (now : Nat) (store : List ActionLogRecord) :
    List ActionLogRecord :=
  match pk with
  | none =>
      log_emit (some author) "create" (some (blog_ct, pk_new))
        ("Створено блог: " ++ title) now store
  | some p =>
      let s1 := log_emit (some author) "update" (some (blog_ct, p))
        ("Оновлено блог: " ++ title) now store
      log_emit (some author) "update" (some (blog_ct, p))
        ("Оновлено блог: " ++ title) now s1

/-- `Blog.delete` (models.py lines 232-238) plus `super().delete()` plus
the `post_delete` receiver `log_blog_delete` (signals.py lines 59-65).
Order: the override logs a targeted delete record; the deletion collector
then cascades over the `GenericRelation`, removing every record targeting
the blog (the just-written delete record included); finally the
`post_delete` receiver appends an untargeted delete record. -/
def blog_delete (pk : String) (title : String) (author : Nat) (now : Nat)
    (store : List ActionLogRecord) : List ActionLogRecord :=
  let s1 := log_emit (some author) "delete" (some (blog_ct, pk))
    ("Видалено блог: " ++ title) now store
  let s2 := s1.filter (fun r => ¬ targets blog_ct pk r)
  log_emit (some author) "delete" none ("Видалено блог: " ++ title) now s2

/-- `Comment.save` (models.py lines 283-292) plus the `post_save` receiver
`log_comment_save` (signals.py lines 68-78).  First persist: receiver
returns early on `created`, override logs a create.  Subsequent save: the
override has no update branch; only the receiver logs an update. -/
def comment_save (pk : Option String) (blog_title : String) (author : Nat)
    (pk_new : String) (now : Nat) (store : List ActionLogRecord) :
    List ActionLogRecord :=
  match pk with
  | none =>
      log_emit (some author) "create" (some (comment_ct, pk_new))
        ("Додано коментар до блогу: " ++ blog_title) now store
  | some p =>
      log_emit (some author) "update" (some (comment_ct, p))
        ("Оновлено коментар до \x22" ++ blog_title ++ "\x22") now store

/-- Deleting a `Comment`: no override, so only the deletion collector's
`GenericRelation` cascade followed by the `post_delete` receiver
`log_comment_delete` (signals.py lines 81-87), which logs untargeted. -/
def comment_delete (pk : String) (blog_title : String) (author : Nat)
    (now : Nat) (store : List ActionLogRecord) : List ActionLogRecord :=
  let s1 := store.filter (fun r => ¬ targets comment_ct pk r)
  log_emit (some author) "delete" none
    ("Видалено коментар до \x22" ++ blog_title ++ "\x22") now s1

/-- `UserProfile.save` (models.py lines 349-364) plus the `post_save`
receiver `log_profile_save` (signals.py lines 36-45).  Both log on every
save — the receiver first (descriptions `Create профілю u` /
`Update профілю u`, from `action_type.capitalize()`), then the override
(`Створено профіль для u` / `Оновлено профіль u`): two records per save,
already on the first persist. -/
def user_profile_save (pk : Option String) (username : String) (user : Nat)
    (pk_new : String) (now : Nat) (store : List ActionLogRecord) :
    List ActionLogRecord :=
  match pk with
  | none =>
      let s1 := log_emit (some user) "create" (some (user_profile_ct, pk_new))
        ("Create профілю " ++ username) now store
      log_emit (some user) "create" (some (user_profile_ct, pk_new))
        ("Створено профіль для " ++ username) now s1
  | some p =>
      let s1 := log_emit (some user) "update" (some (user_profile_ct, p))
        ("Update профілю " ++ username) now store
      log_emit (some user) "update" (some (user_profile_ct, p))
        ("Оновлено профіль " ++ username) now s1

/-! ### Exception flow of the logging hooks (claim C3)

The emitter is parametrised by whether the underlying
`ActionLog.objects.create` raises; an `Except.error` models an
uncaught Python exception propagating out of the operation. -/

/-- A single emit attempt that may raise (`ok = false`). -/
def try_log_emit (ok : Bool) (user : Option Nat) (atype : String)
    (target : Option (Nat × String)) (descr : String) (now : Nat)
    (store : List ActionLogRecord) : Except Unit (List ActionLogRecord) :=
  if ok then Except.ok (log_emit user atype target descr now store)
  else Except.error ()

/-- `Blog.delete` with a fallible emitter.  The override calls
`self.log_action(...)` with no `try`/`except` *before* `super().delete()`
(models.py lines 232-238): when the emit raises, the exception propagates
and the deletion itself never runs.  An `Except.ok` result means
`super().delete()` was reached, i.e. the blog row is gone. -/
def blog_delete_with_failure (ok : Bool) (pk : String) (title : String)
    (author : Nat) (now : Nat) (store : List ActionLogRecord) :
    Except Unit (List ActionLogRecord) :=
  match try_log_emit ok (some author) "delete" (some (blog_ct, pk))
      ("Видалено блог: " ++ title) now store with
  | Except.error e => Except.error e
  | Except.ok s1 =>
      let s2 := s1.filter (fun r => ¬ targets blog_ct pk r)
      Except.ok (log_emit (some author) "delete" none
        ("Видалено блог: " ++ title) now s2)

/-- `ActionLoggingMixin.log_user_action` (src/action_logs/mixins.py lines
158-181): the whole `ActionLog.objects.create(...)` is wrapped in
`try: ... except Exception as e: logger.error(...)`, so a raising emit is
swallowed and the store is left as it was.  (In the source the `create`
call even passes an `additional_data` keyword the model does not declare;
that failure mode is one instance of `ok = false` here.)  The function
always returns normally — no exception escapes to `dispatch`: when the
emit raises (`ok = false`) the store is left as it was and control
continues. -/
def log_user_action (ok : Bool) (user : Nat) (atype : String)
    (target : Option (Nat × String)) (ip : Option String) (ua : String)
    (now : Nat) (store : List ActionLogRecord) : List ActionLogRecord :=
  if ok then
    store ++ [⟨store.length, atype, now, some user, target.map Prod.fst,
      target.map Prod.snd, "", ip, ua⟩]
  else store

/-! ### The emitter's write sequence (claim C4)

`ActionLog.log_action` (src/action_logs/models.py lines 119-135) is NOT a
single write: it first runs `cls.objects.create(...)` *without* the
target columns, and only then — when `obj` was passed — assigns
`log.content_object = obj` and calls `log.save()`.  The function below
returns every durably persisted store state the call passes through, in
order; an interrupted execution stops at one of them. -/

/-- The sequence of persisted states of `ActionLog.log_action`.  The last
element is the state after a complete call. -/
def log_action_states (user : Option Nat) (atype : String)
    (obj : Option (Nat × String)) (descr : String) (ip : Option String)
    (ua : String) (now : Nat) (store : List ActionLogRecord) :
    List (List ActionLogRecord) :=
  let bare_rec : ActionLogRecord :=
    ⟨store.length, atype, now, user, none, none, descr, ip, ua⟩
  let s1 := store ++ [bare_rec]
  match obj with
  | none => [s1]
  | some (ct, oid) =>
      let s2 := s1.map (fun r =>
        if r.id = store.length then
          { r with content_type := some ct, object_id := some oid }
        else r)
      [s1, s2]

/-! ### The catch-all dispatcher and per-model registration (claim C5) -/

/-- The catch-all `post_save` receiver `universal_log_save`
(src/action_logs/signals.py lines 90-97).  It returns early for
`ActionLog`/`ContentType` senders and for instances that have an
`action_logs` attribute — and for everything else its body simply ends:
no record is ever created. -/
def universal_log_save (sender_ct : Nat) (has_action_logs_attr : Bool)
    (store : List ActionLogRecord) : List ActionLogRecord :=
  if sender_ct = action_log_ct ∨ sender_ct = content_type_ct then store
  else if has_action_logs_attr then store
  else store

/-- The actor convention of the receiver built by
`register_model_signals` (signals.py lines 99-118): `hasattr(instance,
'author')` first, then `'user'`, then `'created_by'`, else `None`.  Each
attribute is modelled as `Option (Option Nat)`: the outer layer is
`hasattr`, the inner the attribute's value (an attribute can exist and be
`None`). -/
def pick_actor (author user created_by : Option (Option Nat)) : Option Nat :=
  match author with
  | some a => a
  | none =>
      match user with
      | some u => u
      | none =>
          match created_by with
          | some c => c
          | none => none

/-- The per-model `post_save` receiver that `register_model_signals`
installs for one explicitly registered model class (signals.py lines
101-118): one record per save, actor chosen by `pick_actor`, description
`f'{action_type.capitalize()} {model_class.__name__}: {str(instance)[:100]}'`.
Note: this receiver exists only for models on which
`register_model_signals` was called, and nothing in the repository ever
calls it. -/
def registered_model_receiver (model_name : String) (created : Bool)
    (author user created_by : Option (Option Nat)) (instance_str : String)
    (target : Nat × String) (now : Nat) (store : List ActionLogRecord) :
    List ActionLogRecord :=
  let atype := if created then "create" else "update"
  log_emit (pick_actor author user created_by) atype (some target)
    ((if created then "Create " else "Update ") ++ model_name ++ ": " ++
      instance_str.take 100) now store

/-! ### Default ordering (claim C7)

`ActionLog.Meta.ordering = ['-timestamp']` (src/action_logs/models.py
line 90): the default queryset order sorts on the single key `timestamp`,
descending, and nothing else. -/

/-- The `Meta.ordering` list, verbatim. -/
def meta_ordering : List String := ["-timestamp"]

/-- The comparison induced by `meta_ordering`: `a` may come no later than
`b` exactly when `a.timestamp ≥ b.timestamp`.  No further key exists, so
records with equal timestamps compare equal both ways. -/
def default_order_le (a b : ActionLogRecord) : Prop :=
  b.timestamp ≤ a.timestamp

/-- A listing is consistent with the default ordering when consecutive
records are `default_order_le`-related. -/
def sorted_default (l : List ActionLogRecord) : Prop :=
  l.Pairwise default_order_le

/-! ### Pagination parameters (claim C9) -/

/-- Model of Python's `int(str)`: optional surrounding ASCII blanks, an
optional sign, then one or more decimal digits; anything else raises
`ValueError`, i.e. `none`. -/
def py_int (s : String) : Option Int :=
  let t := ((s.toList.dropWhile (fun c => c = ' ')).reverse.dropWhile
    (fun c => c = ' ')).reverse
  let core : List Char → Option Nat := fun ds =>
    if ds ≠ [] ∧ ds.all Char.isDigit then
      some (ds.foldl (fun n d => n * 10 + (d.toNat - 48)) 0)
    else none
  match t with
  | [] => none
  | c :: rest =>
      if c = '-' then (core rest).map (fun n => -(n : Int))
      else if c = '+' then (core rest).map (fun n => (n : Int))
      else (core t).map (fun n => (n : Int))

/-- `EnhancedPaginationMixin.paginate_by` (src/action_logs/mixins.py line
225): the default page size. -/
def paginate_by : Nat := 10

/-- `EnhancedPaginationMixin.max_per_page` (mixins.py line 228). -/
def max_per_page : Nat := 100

/-- `EnhancedPaginationMixin.allow_all` (mixins.py line 227). -/
def allow_all : Bool := false

/-- `EnhancedPaginationMixin.get_paginate_by` (mixins.py lines 230-241).
`none` parameters model absent query-string keys; the `none` result models
`return None` (pagination disabled).  When `per_page` is absent,
`GET.get('per_page', self.paginate_by)` yields the integer default, which
`int(...)` passes through unchanged. -/
def get_paginate_by (show_param : Option String) (per_page : Option String) :
    Option Int :=
  if allow_all ∧ show_param = some "all" then none
  else
    match per_page with
    | none => some (paginate_by : Int)
    | some s =>
        match py_int s with
        | some n => if n > (max_per_page : Int) then some (max_per_page : Int) else some n
        | none => some (paginate_by : Int)

/-- Modelled from the spec: the page-number resolution of the listing
views is not in src/ (it is performed by the framework paginator invoked
by the generic list view); per the spec, a malformed (non-integer) `page`
value falls back to page 1 instead of erroring. -/
def resolve_page (page : Option String) : Int :=
  match page with
  | none => 1
  | some s =>
      match py_int s with
      | some n => n
      | none => 1

/-! ## Theorems -/

/-- Helper: mapping a function that fixes every element of a list is the
identity on that list. -/
theorem map_id_of_fixed {α : Type} (f : α → α) :
    ∀ l : List α, (∀ a ∈ l, f a = a) → l.map f = l := by
  intro l
  induction l with
  | nil => intro _; rfl
  | cons x xs ih =>
      intro h
      simp only [List.map_cons]
      rw [h x (by simp), ih (fun a ha => h a (by simp [ha]))]

/-- Helper: `targets_owned` looks only at the target columns, so it is
invariant under any change that preserves them. -/
theorem targets_owned_congr (owned : List (Nat × String)) (r s : ActionLogRecord)
    (hct : r.content_type = s.content_type) (hoid : r.object_id = s.object_id) :
    targets_owned owned r ↔ targets_owned owned s := by
  unfold targets_owned
  rw [hct, hoid]

/-- C6 counterexample: the two records that `UserProfile.save` writes on
a first persist both reference actor 1 and target the profile
`(user_profile_ct, "5")`.  Deleting user 1 — whose CASCADE closure
contains that profile — destroys both records: the store ends empty,
contradicting "deleting that user does not delete the record". -/
theorem C6_actor_delete_counterexample :
    (user_profile_save none "u" 1 "5" 0 []).map ActionLogRecord.user
      = [some 1, some 1] ∧
    delete_user_cascade 1 [(user_profile_ct, "5")]
      (user_profile_save none "u" 1 "5" 0 []) = [] := by
  constructor <;> decide

/-- C6 (amended): deleting a user destroys every record targeting an
entity in the user's CASCADE-deletion closure (their blogs, comments and
profile, through the owned entity's `GenericRelation`); every other
record survives — with its actor reference cleared to `none` when it
referenced the deleted user, unchanged otherwise — and afterwards no
surviving record references the deleted actor or targets a cascaded
entity. -/
theorem C6_actor_delete_semantics (uid : Nat) (owned : List (Nat × String))
    (store : List ActionLogRecord) :
    (∀ r ∈ store, ¬ targets_owned owned r → r.user = some uid →
      { r with user := none } ∈ delete_user_cascade uid owned store) ∧
    (∀ r ∈ store, ¬ targets_owned owned r → r.user ≠ some uid →
      r ∈ delete_user_cascade uid owned store) ∧
    (∀ r ∈ store, targets_owned owned r →
      r ∉ delete_user_cascade uid owned store) ∧
    (∀ r ∈ delete_user_cascade uid owned store,
      r.user ≠ some uid ∧ ¬ targets_owned owned r) := by
  refine ⟨?_, ?_, ?_, ?_⟩
  · intro r hr ht hu
    have hf : r ∈ store.filter (fun r => ¬ targets_owned owned r) :=
      List.mem_filter.mpr ⟨hr, by simp [ht]⟩
    have := List.mem_map_of_mem
      (fun r => if r.user = some uid then { r with user := none } else r) hf
    simpa [delete_user_cascade, delete_user, hu] using this
  · intro r hr ht hu
    have hf : r ∈ store.filter (fun r => ¬ targets_owned owned r) :=
      List.mem_filter.mpr ⟨hr, by simp [ht]⟩
    have := List.mem_map_of_mem
      (fun r => if r.user = some uid then { r with user := none } else r) hf
    simpa [delete_user_cascade, delete_user, hu] using this
  · intro r hr ht hmem
    rw [delete_user_cascade, delete_user] at hmem
    rcases List.mem_map.mp hmem with ⟨a, ha, hfa⟩
    have hat : ¬ targets_owned owned a := by
      have := List.of_mem_filter ha
      simpa using this
    have hct : r.content_type = a.content_type := by
      by_cases h : a.user = some uid <;> simp [h] at hfa <;> rw [← hfa]
    have hoid : r.object_id = a.object_id := by
      by_cases h : a.user = some uid <;> simp [h] at hfa <;> rw [← hfa]
    exact hat ((targets_owned_congr owned r a hct hoid).mp ht)
  · intro r hr
    rw [delete_user_cascade, delete_user] at hr
    rcases List.mem_map.mp hr with ⟨a, ha, hfa⟩
    have hat : ¬ targets_owned owned a := by
      have := List.of_mem_filter ha
      simpa using this
    have hct : r.content_type = a.content_type := by
      by_cases h : a.user = some uid <;> simp [h] at hfa <;> rw [← hfa]
    have hoid : r.object_id = a.object_id := by
      by_cases h : a.user = some uid <;> simp [h] at hfa <;> rw [← hfa]
    refine ⟨?_, fun ht => hat ((targets_owned_congr owned r a hct hoid).mp ht)⟩
    by_cases h : a.user = some uid
    · simp [h] at hfa
      rw [← hfa]
      simp
    · simp [h] at hfa
      rw [← hfa]
      exact h

/-- C6 witness: a record referencing actor 1 but targeting nothing in the
actor's cascade closure survives the user deletion with its reference
cleared. -/
theorem C6_actor_delete_semantics_witness :
    (⟨0, "login", 2, none, none, none, "", none, ""⟩ : ActionLogRecord) ∈
      delete_user_cascade 1 [(user_profile_ct, "5")]
        [⟨0, "login", 2, some 1, none, none, "", none, ""⟩] := by
  have h := C6_actor_delete_semantics 1 [(user_profile_ct, "5")]
    [⟨0, "login", 2, some 1, none, none, "", none, ""⟩]
  exact h.1 ⟨0, "login", 2, some 1, none, none, "", none, ""⟩ (by simp)
    (by decide) rfl

/-- C8: the per-object queryset contains exactly the records of the store
whose target equals the requested `(content_type_id, object_id)` pair —
both fields must match, so no record of a different kind with the same
raw id string (or vice versa) gets in. -/
theorem C8_exact_pair_filter (ctid : Nat) (oid : String)
    (store : List ActionLogRecord) (r : ActionLogRecord) :
    r ∈ object_logs_queryset ctid oid store ↔
      r ∈ store ∧ r.content_type = some ctid ∧ r.object_id = some oid := by
  simp [object_logs_queryset, List.mem_filter, targets]

/-- C8 witness: with two records sharing the raw id string "7" but of
different kinds, filtering for `(blog_ct, "7")` returns only the blog
record. -/
theorem C8_exact_pair_filter_witness :
    ((⟨0, "create", 1, none, some blog_ct, some "7", "", none, ""⟩ : ActionLogRecord) ∈
      object_logs_queryset blog_ct "7"
        [⟨0, "create", 1, none, some blog_ct, some "7", "", none, ""⟩,
         ⟨1, "create", 2, none, some comment_ct, some "7", "", none, ""⟩]) ∧
    ¬ ((⟨1, "create", 2, none, some comment_ct, some "7", "", none, ""⟩ : ActionLogRecord) ∈
      object_logs_queryset blog_ct "7"
        [⟨0, "create", 1, none, some blog_ct, some "7", "", none, ""⟩,
         ⟨1, "create", 2, none, some comment_ct, some "7", "", none, ""⟩]) := by
  constructor
  · exact (C8_exact_pair_filter blog_ct "7" _ _).mpr ⟨by simp, rfl, rfl⟩
  · intro h
    have := ((C8_exact_pair_filter blog_ct "7"
      [⟨0, "create", 1, none, some blog_ct, some "7", "", none, ""⟩,
       ⟨1, "create", 2, none, some comment_ct, some "7", "", none, ""⟩]
      ⟨1, "create", 2, none, some comment_ct, some "7", "", none, ""⟩).mp h).2.1
    simp [blog_ct, comment_ct] at this

/-- C10 counterexample: with the `HTTP_X_FORWARDED_FOR` header present
but empty and `REMOTE_ADDR = "10.0.0.1"`, the code returns `REMOTE_ADDR`,
while the claim ("if the header is present, the address is the portion of
its value before the first comma") demands the empty string: the
truthiness test `if x_forwarded_for:` treats an empty header as absent. -/
theorem C10_client_ip_counterexample :
    get_client_ip (some "") (some "10.0.0.1")
      ≠ claimed_client_ip (some "") (some "10.0.0.1") := by
  decide

/-- C10 (amended): when the forwarded-for header is present *and
non-empty* the recorded address is the portion of its value before the
first comma; when the header is absent or empty it is `REMOTE_ADDR`
(possibly absent). -/
theorem C10_client_ip (s : String) (remote : Option String) :
    (s ≠ "" → get_client_ip (some s) remote = claimed_client_ip (some s) remote) ∧
    get_client_ip (some "") remote = remote ∧
    get_client_ip none remote = remote := by
  refine ⟨fun h => ?_, by simp [get_client_ip], rfl⟩
  simp [get_client_ip, claimed_client_ip, h]

/-- C10 witness: a concrete multi-hop forwarded-for value yields its
first entry. -/
theorem C10_client_ip_witness :
    get_client_ip (some "1.2.3.4,5.6.7.8") (some "10.0.0.1") = some "1.2.3.4" ∧
    get_client_ip none (some "10.0.0.1") = some "10.0.0.1" := by
  refine ⟨?_, (C10_client_ip "x" (some "10.0.0.1")).2.2⟩
  have h := (C10_client_ip "1.2.3.4,5.6.7.8" (some "10.0.0.1")).1 (by decide)
  rw [h]
  decide

/-- C7 counterexample: two distinct records with equal timestamps — both
orders of the pair are consistent with the default ordering
`['-timestamp']`, so the default listing order is not a deterministic
total order and ties are not broken by insertion/id order. -/
theorem C7_ordering_counterexample :
    sorted_default
      [⟨0, "create", 5, none, none, none, "", none, ""⟩,
       ⟨1, "update", 5, none, none, none, "", none, ""⟩] ∧
    sorted_default
      [⟨1, "update", 5, none, none, none, "", none, ""⟩,
       ⟨0, "create", 5, none, none, none, "", none, ""⟩] ∧
    (⟨0, "create", 5, none, none, none, "", none, ""⟩ : ActionLogRecord)
      ≠ ⟨1, "update", 5, none, none, none, "", none, ""⟩ := by
  refine ⟨?_, ?_, by decide⟩ <;>
    simp [sorted_default, List.pairwise_cons, default_order_le]

/-- C7 (amended): the default listing order compares records by
`occurred_at` (timestamp) descending and by nothing else; records with
equal timestamps are mutually unordered (no id/insertion tie-break
exists in `Meta.ordering`), so the total order is not determined. -/
theorem C7_default_ordering (a b : ActionLogRecord) :
    (default_order_le a b ↔ b.timestamp ≤ a.timestamp) ∧
    (a.timestamp = b.timestamp → default_order_le a b ∧ default_order_le b a) := by
  refine ⟨Iff.rfl, fun h => ?_⟩
  constructor <;> simp [default_order_le, h]

/-- C7 witness: instantiating the tie case at two concrete records with
timestamp 5. -/
theorem C7_default_ordering_witness :
    default_order_le ⟨0, "create", 5, none, none, none, "", none, ""⟩
      ⟨1, "update", 5, none, none, none, "", none, ""⟩ ∧
    default_order_le ⟨1, "update", 5, none, none, none, "", none, ""⟩
      ⟨0, "create", 5, none, none, none, "", none, ""⟩ := by
  exact (C7_default_ordering
    ⟨0, "create", 5, none, none, none, "", none, ""⟩
    ⟨1, "update", 5, none, none, none, "", none, ""⟩).2 rfl

/-- C1 counterexample: a record targeting a live blog instance
`(blog_ct, "7")` is destroyed when that blog is deleted — the
`GenericRelation` on `LoggedModel` makes the deletion collector cascade
over the records, contradicting "the record still exists afterwards". -/
theorem C1_target_delete_counterexample :
    (⟨0, "create", 5, some 1, some blog_ct, some "7", "Створено блог: b", none, ""⟩ :
      ActionLogRecord) ∉
    delete_instance_cascade blog_ct "7"
      [⟨0, "create", 5, some 1, some blog_ct, some "7", "Створено блог: b", none, ""⟩] := by
  decide

/-- C1 (amended): deleting a target instance of a kind carrying the
reverse `GenericRelation` (Blog, Comment, UserProfile) cascade-deletes
every record targeting it and spares all others; only for kinds without
the relation (such as `User`) does every record survive untouched, its
target reference then resolving to `none` ("not found", not an error). -/
theorem C1_target_delete_semantics (ct : Nat) (oid : String)
    (store : List ActionLogRecord) (live : List (Nat × String)) :
    (ct ∈ logged_model_cts →
      (∀ r ∈ store, targets ct oid r → r ∉ delete_instance_cascade ct oid store) ∧
      (∀ r ∈ store, ¬ targets ct oid r → r ∈ delete_instance_cascade ct oid store)) ∧
    (ct ∉ logged_model_cts → delete_instance_cascade ct oid store = store) ∧
    (∀ r, targets ct oid r → resolve_target (delete_entity ct oid live) r = none) := by
  refine ⟨fun hct => ⟨?_, ?_⟩, fun hct => ?_, fun r hr => ?_⟩
  · intro r hr htgt hmem
    rw [delete_instance_cascade, if_pos hct] at hmem
    have := List.of_mem_filter hmem
    simp [htgt] at this
  · intro r hr htgt
    rw [delete_instance_cascade, if_pos hct]
    exact List.mem_filter.mpr ⟨hr, by simp [htgt]⟩
  · rw [delete_instance_cascade, if_neg hct]
  · rcases hr with ⟨hc, ho⟩
    rw [resolve_target, hc, ho]
    have : (ct, oid) ∉ delete_entity ct oid live := by
      intro hmem
      have := List.of_mem_filter hmem
      simp at this
    simp [this]

/-- C1 witness: a record targeting user 9 (a kind without the reverse
generic relation) survives the deletion of that user entity, and its
reference then resolves to not-found. -/
theorem C1_target_delete_witness :
    delete_instance_cascade user_ct "9"
      [⟨0, "create", 5, some 2, some user_ct, some "9", "d", none, ""⟩]
      = [⟨0, "create", 5, some 2, some user_ct, some "9", "d", none, ""⟩] ∧
    resolve_target (delete_entity user_ct "9" [(user_ct, "9")])
      ⟨0, "create", 5, some 2, some user_ct, some "9", "d", none, ""⟩ = none := by
  have h := C1_target_delete_semantics user_ct "9"
    [⟨0, "create", 5, some 2, some user_ct, some "9", "d", none, ""⟩] [(user_ct, "9")]
  exact ⟨h.2.1 (by decide),
    h.2.2 ⟨0, "create", 5, some 2, some user_ct, some "9", "d", none, ""⟩ ⟨rfl, rfl⟩⟩

/-- C2 counterexample: the very first persist of a `UserProfile` appends
TWO create records, not exactly one — the `post_save` receiver
`log_profile_save` and the `UserProfile.save` override both log. -/
theorem C2_lifecycle_counterexample :
    (user_profile_save none "u" 1 "5" 0 []).length = 2 ∧
    (user_profile_save none "u" 1 "5" 0 []).map ActionLogRecord.action_type
      = ["create", "create"] := by
  constructor <;> rfl

/-- C2 (amended): the records each lifecycle transition appends.  First
persist of a Blog or Comment: exactly one create record targeting it.
A subsequent Blog save: exactly two update records (signal receiver plus
override); a subsequent Comment save: exactly one; every UserProfile
save: exactly two records (create on first persist, update later).  A
Blog deletion writes a targeted delete record, but the generic-relation
cascade then removes it together with every other record targeting the
blog, leaving exactly one new untargeted delete record whose description
names the pre-delete title; a Comment deletion likewise leaves one
untargeted delete record naming the pre-delete blog title. -/
theorem C2_lifecycle_emission (title blog_title username : String)
    (author user : Nat) (pk pk_new : String) (now : Nat)
    (store : List ActionLogRecord) :
    blog_save none title author pk_new now store
      = store ++ [⟨store.length, "create", now, some author, some blog_ct,
          some pk_new, "Створено блог: " ++ title, none, ""⟩] ∧
    blog_save (some pk) title author pk_new now store
      = store ++ [⟨store.length, "update", now, some author, some blog_ct,
          some pk, "Оновлено блог: " ++ title, none, ""⟩,
          ⟨store.length + 1, "update", now, some author, some blog_ct,
          some pk, "Оновлено блог: " ++ title, none, ""⟩] ∧
    blog_delete pk title author now store
      = store.filter (fun r => ¬ targets blog_ct pk r)
          ++ [⟨(store.filter (fun r => ¬ targets blog_ct pk r)).length, "delete",
          now, some author, none, none, "Видалено блог: " ++ title, none, ""⟩] ∧
    comment_save none blog_title author pk_new now store
      = store ++ [⟨store.length, "create", now, some author, some comment_ct,
          some pk_new, "Додано коментар до блогу: " ++ blog_title, none, ""⟩] ∧
    comment_save (some pk) blog_title author pk_new now store
      = store ++ [⟨store.length, "update", now, some author, some comment_ct,
          some pk, "Оновлено коментар до \x22" ++ blog_title ++ "\x22", none, ""⟩] ∧
    comment_delete pk blog_title author now store
      = store.filter (fun r => ¬ targets comment_ct pk r)
          ++ [⟨(store.filter (fun r => ¬ targets comment_ct pk r)).length, "delete",
          now, some author, none, none,
          "Видалено коментар до \x22" ++ blog_title ++ "\x22", none, ""⟩] ∧
    user_profile_save none username user pk_new now store
      = store ++ [⟨store.length, "create", now, some user, some user_profile_ct,
          some pk_new, "Create профілю " ++ username, none, ""⟩,
          ⟨store.length + 1, "create", now, some user, some user_profile_ct,
          some pk_new, "Створено профіль для " ++ username, none, ""⟩] ∧
    user_profile_save (some pk) username user pk_new now store
      = store ++ [⟨store.length, "update", now, some user, some user_profile_ct,
          some pk, "Update профілю " ++ username, none, ""⟩,
          ⟨store.length + 1, "update", now, some user, some user_profile_ct,
          some pk, "Оновлено профіль " ++ username, none, ""⟩] := by
  refine ⟨rfl, ?_, ?_, rfl, rfl, ?_, ?_, ?_⟩
  · simp [blog_save, log_emit]
  · have hfilter :
        (log_emit (some author) "delete" (some (blog_ct, pk))
            ("Видалено блог: " ++ title) now store).filter
          (fun r => ¬ targets blog_ct pk r)
        = store.filter (fun r => ¬ targets blog_ct pk r) := by
      simp [log_emit, List.filter_append, targets]
    simp only [blog_delete]
    rw [hfilter]
    simp [log_emit]
  · rfl
  · simp [user_profile_save, log_emit]
  · simp [user_profile_save, log_emit]

/-- C3 counterexample: when the logging emit inside `Blog.delete` raises,
the exception propagates out of `delete` and `super().delete()` is never
reached — the primary mutation does NOT complete, contradicting the
claim that a failure in a logging hook never blocks the mutation. -/
theorem C3_hook_failure_counterexample :
    blog_delete_with_failure false "7" "b" 1 0 [] = Except.error () := by
  rfl

/-- C3 (amended): only the view-layer `ActionLoggingMixin.log_user_action`
recovers a logging failure locally (it returns normally, leaving the
store untouched, and adds exactly one record when the emit succeeds);
the model-layer hook in `Blog.delete` has no handler, so a logging
failure there aborts the deletion, while a successful emit lets the
deletion proceed. -/
theorem C3_hook_failure_scope (user author : Nat) (atype pk title : String)
    (target : Option (Nat × String)) (ip : Option String) (ua : String)
    (now : Nat) (store : List ActionLogRecord) :
    log_user_action false user atype target ip ua now store = store ∧
    log_user_action true user atype target ip ua now store
      = store ++ [⟨store.length, atype, now, some user, target.map Prod.fst,
          target.map Prod.snd, "", ip, ua⟩] ∧
    (∃ s, blog_delete_with_failure true pk title author now store = Except.ok s) ∧
    blog_delete_with_failure false pk title author now store = Except.error () := by
  refine ⟨rfl, rfl, ⟨_, rfl⟩, rfl⟩

/-- C4 counterexample: a call of `ActionLog.log_action` with a target
passes through TWO persisted states, and in the first the new record has
no target columns set (`content_type = none`) although a target object
was supplied — the append is create-then-update, not all-or-nothing. -/
theorem C4_atomic_append_counterexample :
    (log_action_states (some 1) "view" (some (blog_ct, "7")) "d" none "" 0 []).length
      = 2 ∧
    (log_action_states (some 1) "view" (some (blog_ct, "7")) "d" none "" 0 []).head?
      = some [⟨0, "view", 0, some 1, none, none, "d", none, ""⟩] := by
  constructor <;> rfl

/-- C4 (amended): without a target, `log_action` performs a single
append.  With a target, it performs two writes: the first persisted
state holds the new record with empty target columns, and only the final
state holds the one complete record (assuming the fresh primary-key
token collides with no existing record, as uuid keys do not). -/
theorem C4_write_sequence (user : Option Nat) (atype descr : String)
    (ip : Option String) (ua : String) (now : Nat)
    (store : List ActionLogRecord) (ct : Nat) (oid : String)
    (hfresh : ∀ r ∈ store, r.id ≠ store.length) :
    log_action_states user atype none descr ip ua now store
      = [store ++ [⟨store.length, atype, now, user, none, none, descr, ip, ua⟩]] ∧
    log_action_states user atype (some (ct, oid)) descr ip ua now store
      = [store ++ [⟨store.length, atype, now, user, none, none, descr, ip, ua⟩],
         store ++ [⟨store.length, atype, now, user, some ct, some oid, descr, ip, ua⟩]] := by
  refine ⟨rfl, ?_⟩
  simp only [log_action_states, List.map_append]
  rw [map_id_of_fixed _ store (fun r hr => by simp [hfresh r hr])]
  simp

/-- C4 witness: the write sequence at a concrete call on an empty store. -/
theorem C4_write_sequence_witness :
    log_action_states (some 1) "view" (some (blog_ct, "7")) "d" none "" 3 []
      = [[⟨0, "view", 3, some 1, none, none, "d", none, ""⟩],
         [⟨0, "view", 3, some 1, some blog_ct, some "7", "d", none, ""⟩]] := by
  exact (C4_write_sequence (some 1) "view" "d" none "" 3 [] blog_ct "7"
    (fun r hr => by simp at hr)).2

/-- C5 counterexample: the catch-all receiver `universal_log_save`,
observing the save of an arbitrary registered kind (content type 5, no
`action_logs` attribute), creates no record at all — the store stays
empty where the claim requires one new record with a convention-chosen
actor. -/
theorem C5_dispatcher_counterexample :
    universal_log_save 5 false [] = [] := by
  rfl

/-- C5 (amended): the catch-all `post_save` receiver observes every save
but never creates a record (it is the identity on the store for every
sender); the actor-by-convention selection — `author` attribute first,
else `user`, else `created_by`, else anonymous — is implemented only in
the per-model receiver that `register_model_signals` installs, which
appends exactly one record per save and which nothing in the repository
ever registers. -/
theorem C5_dispatcher (sender_ct : Nat) (has_attr created : Bool)
    (store : List ActionLogRecord) (model_name instance_str : String)
    (a u c : Option Nat) (author user created_by : Option (Option Nat))
    (target : Nat × String) (now : Nat) :
    universal_log_save sender_ct has_attr store = store ∧
    registered_model_receiver model_name created author user created_by
        instance_str target now store
      = store ++ [⟨store.length, if created then "create" else "update", now,
          pick_actor author user created_by, some target.1, some target.2,
          (if created then "Create " else "Update ") ++ model_name ++ ": " ++
            instance_str.take 100, none, ""⟩] ∧
    pick_actor (some a) user created_by = a ∧
    pick_actor none (some u) created_by = u ∧
    pick_actor none none (some c) = c ∧
    pick_actor none none none = none := by
  refine ⟨?_, by simp [registered_model_receiver, log_emit], rfl, rfl, rfl, rfl⟩
  simp [universal_log_save]

/-- C9: the pagination parameters of the listing fall back instead of
erroring — a malformed (non-integer) `page` resolves to page 1 (this
half is modelled from the spec, see `resolve_page`), a malformed
`per_page` falls back to the default page size, a `per_page` above the
configured maximum is capped at the maximum, and a well-formed
`per_page` within the bound is honoured. -/
theorem C9_pagination_fallback (s t : String) (n : Int) :
    (py_int s = none → resolve_page (some s) = 1) ∧
    (py_int s = none →
      get_paginate_by none (some s) = some (paginate_by : Int)) ∧
    (py_int t = some n → n > (max_per_page : Int) →
      get_paginate_by none (some t) = some (max_per_page : Int)) ∧
    (py_int t = some n → ¬ n > (max_per_page : Int) →
      get_paginate_by none (some t) = some n) := by
    refine ⟨fun h => ?_, fun h => ?_, fun h hgt => ?_, fun h hle => ?_⟩
    · simp [resolve_page, h]
    · simp [get_paginate_by, allow_all, h]
    · simp [get_paginate_by, allow_all, h, hgt]
    · simp [get_paginate_by, allow_all, h, hle]

/-- C9 witness: `page=abc` resolves to page 1, `per_page=abc` to the
default size 10, `per_page=250` is capped at 100 and `per_page=25` is
honoured. -/
theorem C9_pagination_fallback_witness :
    resolve_page (some "abc") = 1 ∧
    get_paginate_by none (some "abc") = some 10 ∧
    get_paginate_by none (some "250") = some 100 ∧
    get_paginate_by none (some "25") = some 25 := by
  have h1 := C9_pagination_fallback "abc" "250" 250
  have h2 := C9_pagination_fallback "abc" "25" 25
  exact ⟨h1.1 (by decide), h1.2.1 (by decide),
    h1.2.2.1 (by decide) (by decide), h2.2.2.2 (by decide) (by decide)⟩

end ActionLogs
